import Mathlib

/-
Verification development for the avandra repository (a tool-augmented
conversational agent).  The Python sources under src/app are shallowly
embedded below:

  - src/app/tools/roll_dice.py        -> get_emoji, DiceRollInput, roll_dice, ...
  - src/app/tools/character_sheet.py  -> sheets, get_character_sheet, system_prompt, ...
  - src/app/dispatch_tool.py          -> handle_tool
  - src/app/dispatch_prompt.py        -> handle_prompt, assembleSystemPrompt, emojiCatalog
  - src/app/backends/anthropic.py     -> AnthropicClient.call / runLoop

Conventions of the embedding:
  - Python ints are Int, Python strings are String.
  - Tool inputs (Python dict | str) are modelled by the small Json type;
    the str case of the run functions parses the string into the same
    structured value, so both cases collapse to one Json argument.
  - random.randint is modelled by an arbitrary draw function
    RandFn = Int -> Int -> Nat -> Int (low, high, call index); the contract
    of random.randint (result within [low, high]) is taken as a hypothesis
    where a claim needs it.
  - External effects (the Anthropic API, send_reply, tool execution) are
    modelled by an oracle list of gateway results, an abstract tool
    function, and explicit output lists (sink messages and an event trace).
-/

-- ======================================================================
-- A small JSON value model for tool inputs and pydantic validation.
-- ======================================================================

inductive Json where
  | jnull : Json
  | jbool (b : Bool) : Json
  | jint (n : Int) : Json
  | jstr (s : String) : Json
  | jarr (xs : List Json) : Json
  | jobj (fields : List (String × Json)) : Json

instance {ε α : Type} [DecidableEq ε] [DecidableEq α] : DecidableEq (Except ε α) := fun a b =>
  match a, b with
  | Except.ok x, Except.ok y =>
    if h : x = y then Decidable.isTrue (by rw [h])
    else Decidable.isFalse (fun hc => h (Except.ok.inj hc))
  | Except.error x, Except.error y =>
    if h : x = y then Decidable.isTrue (by rw [h])
    else Decidable.isFalse (fun hc => h (Except.error.inj hc))
  | Except.ok _, Except.error _ => Decidable.isFalse (fun hc => Except.noConfusion hc)
  | Except.error _, Except.ok _ => Decidable.isFalse (fun hc => Except.noConfusion hc)

/-- Looks up a key in a JSON object field list (first occurrence). -/
def getField (fields : List (String × Json)) (k : String) : Option Json :=
  (fields.find? (fun kv => kv.fst == k)).map Prod.snd

-- ======================================================================
-- src/app/tools/roll_dice.py
-- ======================================================================

/-- Embedding of roll_dice.get_emoji: maps a die size and face value to a
Discord emoji string; unsupported combinations fall through to the decimal
rendering of the value, exactly as the Python match statement does. -/
def get_emoji (sides value : Int) : String :=
  if sides > 20 then toString value
  else if sides == 4 then
    if value == 1 then "<:d4_1:1361141389756203248>"
    else if value == 2 then "<:d4_2:1361141429585444976>"
    else if value == 3 then "<:d4_3:1361141445649629385>"
    else if value == 4 then "<:d4_4:1361141459910135858>"
    else toString value
  else if sides == 6 then
    if value == 1 then "<:d6_1:1361146264963645520>"
    else if value == 2 then "<:d6_2:1361147339661901964>"
    else if value == 3 then "<:d6_3:1361147351624061248>"
    else if value == 4 then "<:d6_4:1361147359915937792>"
    else if value == 5 then "<:d6_5:1361147368187236412>"
    else if value == 6 then "<:d6_6:1361147376131113080>"
    else toString value
  else
    if value == 1 then
      if sides == 20 then "<:d20_1:1356083355460042923>"
      else "<:d_1:1361142075453735073>"
    else if value == 2 then "<:d20_2:1356088534494351414>"
    else if value == 3 then "<:d20_3:1356088583181697206>"
    else if value == 4 then "<:d20_4:1356089534906896424>"
    else if value == 5 then "<:d20_5:1356094275670114318>"
    else if value == 6 then "<:d20_6:1356104989075968180>"
    else if value == 7 then "<:d20_7:1356105384997158932>"
    else if value == 8 then "<:d20_8:1356106235384172564>"
    else if value == 9 then "<:d20_9:1356131184647868476>"
    else if value == 10 then "<:d20_10:1356131225592659988>"
    else if value == 11 then "<:d20_11:1356131251580440707>"
    else if value == 12 then "<:d20_12:1356131268164583424>"
    else if value == 13 then "<:d20_13:1356131281141764247>"
    else if value == 14 then "<:d20_14:1356131293594910932>"
    else if value == 15 then "<:d20_15:1356131307595370506>"
    else if value == 16 then "<:d20_16:1356131322225102878>"
    else if value == 17 then "<:d20_17:1356138165869740153>"
    else if value == 18 then "<:d20_18:1356138176569151508>"
    else if value == 19 then "<:d20_19:1356138185666854997>"
    else if value == 20 then "<:d20_20:1356138194634276981>"
    else toString value

/-- Embedding of the pydantic model DiceRollInput: an already validated
dice request (sides, times both ints; validation enforces both >= 1 and
defaults times to 1). -/
structure DiceRollInput where
  sides : Int
  times : Int
deriving DecidableEq

/-- Embedding of DiceRollInput.stringify. -/
def DiceRollInput.stringify (i : DiceRollInput) : String :=
  toString i.times ++ "d" ++ toString i.sides

/-- A draw function standing for random.randint: arguments are the low
bound, the high bound, and the index of the call within one roll. -/
def RandFn : Type := Int → Int → Nat → Int

/-- Embedding of the local helper roll inside roll_dice: times sequential
randint(1, sides) draws.  A negative times yields the empty list, exactly
as range(times) does in Python. -/
def rollList (rand : RandFn) (sides : Int) (times : Nat) : List Int :=
  (List.range times).map (fun i => rand 1 sides i)

/-- Embedding of the local helper to_emojis inside roll_dice. -/
def toEmojis (sides : Int) (rolls : List Int) : String :=
  String.intercalate " " (rolls.map (fun r => get_emoji sides r))

/-- Rendering of pydantic_core.to_json applied to the rolls payload dict,
compact form.  No claim inspects whitespace details of this string. -/
def renderRollsJson (rolls : List Int) : String :=
  "\x7b\"rolls\":[" ++ String.intercalate "," (rolls.map toString) ++ "]\x7d"

/-- Embedding of roll_dice.roll_dice: returns the list of send_reply
messages emitted during the call and the returned string payload.  The
guard on sides < 1 mirrors lines 150-151 of roll_dice.py (it emits
nothing and returns the fixed message); the code after the unconditional
return statement at line 163 of roll_dice.py is unreachable and is not
part of the embedding. -/
def roll_dice (rand : RandFn) (input : DiceRollInput) : List String × String :=
  if input.sides < 1 then
    ([], "Number of sides must be at least 1.")
  else
    let rolls := rollList rand input.sides input.times.toNat
    ([input.stringify ++ " -> " ++ toEmojis input.sides rolls],
     renderRollsJson rolls)

/-- Embedding of pydantic validation of DiceRollInput (strict mode):
the field sides must be present and an int >= 1; the field times is
optional, defaults to 1, and when present must be an int >= 1.  The error
strings summarize the pydantic messages; no claim inspects their text. -/
def validateDiceInput : Json → Except String DiceRollInput
  | Json.jobj fields =>
    match getField fields "sides" with
    | some (Json.jint s) =>
      if s < 1 then Except.error "sides must be greater than or equal to 1"
      else
        match getField fields "times" with
        | none => Except.ok ⟨s, 1⟩
        | some (Json.jint t) =>
          if t < 1 then Except.error "times must be greater than or equal to 1"
          else Except.ok ⟨s, t⟩
        | some _ => Except.error "times must be a valid integer"
    | some _ => Except.error "sides must be a valid integer"
    | none => Except.error "sides field required"
  | _ => Except.error "input must be an object"

/-- Outcome of executing a tool: the side-channel fragments it emitted via
its reply callback, in order, and its result (ok return value, or the
description of the exception it raised). -/
structure ToolOutcome where
  emits : List String
  result : Except String String
deriving DecidableEq

/-- Embedding of roll_dice.run: validates the input, then rolls.  A
validation failure raises out of run, which the embedding records as an
error result with no emissions. -/
def roll_dice_run (rand : RandFn) (input : Json) : ToolOutcome :=
  match validateDiceInput input with
  | Except.error e => ⟨[], Except.error e⟩
  | Except.ok inp =>
    let r := roll_dice rand inp
    ⟨r.fst, Except.ok r.snd⟩

-- ======================================================================
-- src/app/tools/character_sheet.py
-- ======================================================================

/-- Embedding of the pydantic model AbilityScore. -/
structure AbilityScore where
  score : Int := 10
  proficient : Bool := false

/-- Embedding of the pydantic model CharacterClass. -/
structure CharacterClass where
  class_name : String
  level : Int

/-- Embedding of the pydantic model CharacterSheet. -/
structure CharacterSheet where
  name : String
  race : String
  gender : String
  total_character_level : Int := 1
  classes : List CharacterClass
  strength : AbilityScore
  dexterity : AbilityScore
  constitution : AbilityScore
  intelligence : AbilityScore
  wisdom : AbilityScore
  charisma : AbilityScore
  skill_proficiencies : List String := []
  weapon_proficiencies : List String := []
  other : List String := []

/-- Embedding of the module level dict sheets in character_sheet.py, as an
association list in insertion order. -/
def sheets : List (String × CharacterSheet) :=
  [ ("Alistair Darrow",
     { name := "Alistair Darrow", race := "Human", gender := "Male",
       total_character_level := 3,
       classes := [{ class_name := "Wizard", level := 3 }],
       strength := { score := 9 }, dexterity := { score := 13 },
       constitution := { score := 11 },
       intelligence := { score := 16, proficient := true },
       wisdom := { score := 14, proficient := true },
       charisma := { score := 15 },
       skill_proficiencies := ["Arcana", "Athletics", "Insight", "Investigation"],
       weapon_proficiencies := ["Crossbow", "Light Dagger", "Quarterstaff", "Sling"] }),
    ("Hoglat",
     { name := "Hoglat", race := "Human", gender := "Male",
       total_character_level := 3,
       classes := [{ class_name := "Cleric", level := 3 }],
       strength := { score := 16, proficient := true },
       dexterity := { score := 12 }, constitution := { score := 15 },
       intelligence := { score := 8 },
       wisdom := { score := 14, proficient := true },
       charisma := { score := 10 },
       skill_proficiencies := ["Acrobatics", "Athletics (Expertise)", "Insight",
                               "Intimidation", "Medicine"],
       weapon_proficiencies := ["Maul", "Simple Weapons", "Heavy Weapons"] }),
    ("Vesper",
     { name := "Vesper", race := "Stout Halfling", gender := "Male",
       total_character_level := 3,
       classes := [{ class_name := "Bard", level := 3 }],
       strength := { score := 10 },
       dexterity := { score := 15, proficient := true },
       constitution := { score := 13 }, intelligence := { score := 14 },
       wisdom := { score := 8 },
       charisma := { score := 15, proficient := true },
       skill_proficiencies := ["Acrobatics", "Deception", "Insight (Expertise)",
                               "Performance (Expertise)", "Persuasion"],
       weapon_proficiencies := ["Crossbow", "Hand", "Longsword", "Rapier",
                                "Shortsword", "Simple Weapons"],
       other := ["Advantage against being frightened", "Advantage against poison",
                 "Jack of All Trades"] }),
    ("Zauber Stab",
     { name := "Zauber Stab", race := "Half-Orc", gender := "Male",
       total_character_level := 3,
       classes := [{ class_name := "Barbarian", level := 3 }],
       strength := { score := 16, proficient := true },
       dexterity := { score := 13 },
       constitution := { score := 16, proficient := true },
       intelligence := { score := 10 }, wisdom := { score := 12 },
       charisma := { score := 8 },
       skill_proficiencies := ["Athletics", "Intimidation", "Survival"],
       weapon_proficiencies := ["Martial Weapons", "Simple Weapons"],
       other := ["Advantage on DEX against effects that you can see while not blinded, deafened, or incapacitated.",
                 "+1 on all Arcana checks."] }) ]

/-- The keys of sheets in insertion order (Python list(sheets.keys())). -/
def sheetNames : List String := sheets.map Prod.fst

/-- Looks a character name up in sheets (Python name in sheets /
sheets[name]). -/
def lookupSheet (name : String) : Option CharacterSheet :=
  (sheets.find? (fun kv => kv.fst == name)).map Prod.snd

/-- JSON rendering of a string literal.  The character data contains no
characters needing escapes, so plain quoting is faithful here. -/
def jsonStr (s : String) : String := "\"" ++ s ++ "\""

/-- JSON rendering of a list of strings (pydantic_core.to_json of a
Python list of str). -/
def renderStrListJson (xs : List String) : String :=
  "[" ++ String.intercalate "," (xs.map jsonStr) ++ "]"

/-- JSON rendering of an AbilityScore. -/
def dumpAbility (a : AbilityScore) : String :=
  "\x7b\"score\":" ++ toString a.score ++ ",\"proficient\":"
    ++ (if a.proficient then "true" else "false") ++ "\x7d"

/-- JSON rendering of a CharacterClass. -/
def dumpClass (c : CharacterClass) : String :=
  "\x7b\"class_name\":" ++ jsonStr c.class_name ++ ",\"level\":"
    ++ toString c.level ++ "\x7d"

/-- Rendering of CharacterSheet.model_dump_json, with the fields in model
order.  The embedding uses the compact form (the Python call passes
indent=2); no claim inspects whitespace details of this string. -/
def dumpSheet (s : CharacterSheet) : String :=
  "\x7b\"name\":" ++ jsonStr s.name
    ++ ",\"race\":" ++ jsonStr s.race
    ++ ",\"gender\":" ++ jsonStr s.gender
    ++ ",\"total_character_level\":" ++ toString s.total_character_level
    ++ ",\"classes\":[" ++ String.intercalate "," (s.classes.map dumpClass) ++ "]"
    ++ ",\"strength\":" ++ dumpAbility s.strength
    ++ ",\"dexterity\":" ++ dumpAbility s.dexterity
    ++ ",\"constitution\":" ++ dumpAbility s.constitution
    ++ ",\"intelligence\":" ++ dumpAbility s.intelligence
    ++ ",\"wisdom\":" ++ dumpAbility s.wisdom
    ++ ",\"charisma\":" ++ dumpAbility s.charisma
    ++ ",\"skill_proficiencies\":" ++ renderStrListJson s.skill_proficiencies
    ++ ",\"weapon_proficiencies\":" ++ renderStrListJson s.weapon_proficiencies
    ++ ",\"other\":" ++ renderStrListJson s.other
    ++ "\x7d"

/-- Embedding of pydantic validation of GetCharacterSheetInput (strict
mode): the field character_name must be present and a string.  The enum
keyword in the Field call is only schema metadata in pydantic and does
not restrict validation, so any string passes. -/
def validateCharSheetInput : Json → Except String String
  | Json.jobj fields =>
    match getField fields "character_name" with
    | some (Json.jstr s) => Except.ok s
    | some _ => Except.error "character_name must be a valid string"
    | none => Except.error "character_name field required"
  | _ => Except.error "input must be an object"

/-- Embedding of character_sheet.get_character_sheet: a name outside
sheets raises ValueError, a known name returns the serialized sheet. -/
def get_character_sheet (character_name : String) : Except String String :=
  match lookupSheet character_name with
  | none => Except.error ("Character " ++ character_name ++ " not found.")
  | some sheet => Except.ok (dumpSheet sheet)

/-- Embedding of character_sheet.run: validates the input, then looks the
sheet up.  This tool never calls send_reply, so it emits nothing. -/
def character_sheet_run (input : Json) : ToolOutcome :=
  match validateCharSheetInput input with
  | Except.error e => ⟨[], Except.error e⟩
  | Except.ok name => ⟨[], get_character_sheet name⟩

/-- Embedding of character_sheet.system_prompt: a text segment with the
party member list, extended with the full sheet for a recognized name.
The Python annotation admits None but both branches return a dict, so the
embedding returns the segment directly (type "text" is a fixed field and
is kept implicit). -/
def system_prompt (character_name : String) : String :=
  let party_members := renderStrListJson sheetNames
  match lookupSheet character_name with
  | none => "The party members are: " ++ party_members
  | some sheet =>
    "The party members are: " ++ party_members ++ "\n\n"
      ++ "Here is the player's character sheet:\n" ++ dumpSheet sheet

-- ======================================================================
-- src/app/dispatch_tool.py
-- ======================================================================

/-- Embedding of dispatch_tool.handle_tool: dispatches a tool call by
name.  An unknown name sends the diagnostic string through the reply
callback and also returns it as the tool result. -/
def handle_tool (rand : RandFn) (tool_name : String) (tool_input : Json) : ToolOutcome :=
  match tool_name with
  | "get_character_sheet" => character_sheet_run tool_input
  | "roll_dice" => roll_dice_run rand tool_input
  | _ => ⟨["Unknown tool: " ++ tool_name], Except.ok ("Unknown tool: " ++ tool_name)⟩

-- ======================================================================
-- src/app/dispatch_prompt.py
-- ======================================================================

/-- Embedding of the catalog string built by dispatch_prompt._get_emojis:
d4 faces 1-4, d6 faces 1-6, the generic d_1 face (via get_emoji 19 1),
then d20 faces 1-20, concatenated. -/
def emojiCatalog : String :=
  String.join ((List.range' 1 4).map (fun i => get_emoji 4 (Int.ofNat i)))
    ++ String.join ((List.range' 1 6).map (fun i => get_emoji 6 (Int.ofNat i)))
    ++ get_emoji 19 1
    ++ String.join ((List.range' 1 20).map (fun i => get_emoji 20 (Int.ofNat i)))

/-- One system prompt segment: type is always "text" in this program, so
only the text and the presence of the cache_control marker are kept. -/
structure PromptSeg where
  text : String
  cached : Bool

/-- The fixed instructional system segment built in
dispatch_prompt._ask_claude. -/
def basePromptText : String :=
  "You are the goddess Avandra, patron deity of luck and adventure. "
    ++ "You help run a D&D 5e campaign by reading a character sheet and "
    ++ "rolling dice."
    ++ "\n\n"
    ++ "Before rolling dice, explain the relevant character stat and what "
    ++ "dice you will roll, but don't describe the outcomes."

/-- Embedding of the system prompt assembly in dispatch_prompt._ask_claude:
the fixed segment, then the character segment with the ephemeral cache
marker.  The walrus condition on the character segment is always truthy
(system_prompt always returns a non-empty dict), so the segment is always
appended. -/
def assembleSystemPrompt (character_name : String) : List PromptSeg :=
  [⟨basePromptText, false⟩, ⟨system_prompt character_name, true⟩]

-- ======================================================================
-- src/app/backends/anthropic.py : the conversation loop
-- ======================================================================

/-- One content block, polymorphic over the shapes the loop handles.  The
constructor other carries the type string of any further provider block
shape (the Python code matches on the string content.type, and every
unhandled type string lands in the default branch). -/
inductive Block where
  | text (s : String) : Block
  | tool_use (id : String) (name : String) (input : Json) : Block
  | tool_result (tool_use_id : String) (content : String) : Block
  | other (ty : String) : Block

/-- The type tag of a block, as the Python attribute content.type. -/
def Block.btype : Block → String
  | Block.text _ => "text"
  | Block.tool_use _ _ _ => "tool_use"
  | Block.tool_result _ _ => "tool_result"
  | Block.other ty => ty

/-- One entry of the messages list: a role string and a content list,
exactly the dict shape the Python code appends. -/
structure Turn where
  role : String
  content : List Block

/-- An assistant message returned by call_api: its content blocks and its
stop_reason string. -/
structure AssistantMsg where
  content : List Block
  stop_reason : String

/-- Result of one call_api invocation: the message, or the description of
the exception it raised. -/
def GwResult : Type := Except String AssistantMsg

/-- The behavior of the handle_tool callback as the loop sees it, already
closed over everything but the tool name and input. -/
def ToolFn : Type := String → Json → ToolOutcome

/-- Observable events of one loop run, in program order: a call_api
invocation, a call_api failure, a tool invocation, a side-channel fragment
enqueued by a tool, appending the assistant turn to messages, appending
the tool-result turn to messages (with the referenced tool-use ids), and
one send_reply call. -/
inductive Event where
  | gatewayCall : Event
  | gatewayError (e : String) : Event
  | toolInvoke (name : String) : Event
  | emit (s : String) : Event
  | appendAssistant : Event
  | appendToolResults (ids : List String) : Event
  | sinkSend (s : String) : Event
deriving DecidableEq

/-- Output of the for loop over the content blocks of one assistant
message (lines 132-155 of anthropic.py): the reply buffer entries, the
collected tool results as (tool_use_id, content) pairs, and the tool
related events, each in program order. -/
structure BlocksOut where
  replies : List String
  results : List (String × String)
  events : List Event
deriving DecidableEq

/-- Embedding of the for loop over content blocks: a text block is
buffered; a tool_use block runs the tool, buffering its emitted fragments,
then either collects a tool result or buffers an error entry; any other
block type buffers a diagnostic entry. -/
def processBlocks (tool : ToolFn) : List Block → BlocksOut
  | [] => ⟨[], [], []⟩
  | b :: bs =>
    let rest := processBlocks tool bs
    match b with
    | Block.text s => ⟨s :: rest.replies, rest.results, rest.events⟩
    | Block.tool_use id name inp =>
      let o := tool name inp
      match o.result with
      | Except.ok r =>
        ⟨o.emits ++ rest.replies, (id, r) :: rest.results,
         (Event.toolInvoke name :: o.emits.map Event.emit) ++ rest.events⟩
      | Except.error e =>
        ⟨o.emits ++ ("Error: " ++ e) :: rest.replies, rest.results,
         (Event.toolInvoke name :: o.emits.map Event.emit) ++ rest.events⟩
    | b => ⟨("Unknown content type: " ++ b.btype) :: rest.replies, rest.results, rest.events⟩

/-- The tool-result turn built at lines 157-163 of anthropic.py: role user,
content the collected tool_result blocks in collection order. -/
def toolResultTurn (results : List (String × String)) : Turn :=
  ⟨"user", results.map (fun r => Block.tool_result r.fst r.snd)⟩

/-- The messages list after one successful loop iteration on msg: the
assistant turn is always appended; the tool-result turn only when at least
one tool result was collected. -/
def nextMessages (tool : ToolFn) (messages : List Turn) (msg : AssistantMsg) : List Turn :=
  let pb := processBlocks tool msg.content
  let ms1 := messages ++ [⟨"assistant", msg.content⟩]
  if pb.results.isEmpty then ms1 else ms1 ++ [toolResultTurn pb.results]

/-- The send_reply calls of one successful iteration: one joined message
when the reply buffer is non-empty, nothing otherwise. -/
def iterFlush (tool : ToolFn) (msg : AssistantMsg) : List String :=
  let pb := processBlocks tool msg.content
  if pb.replies.isEmpty then [] else [String.intercalate "\n" pb.replies]

/-- The events of one successful iteration, in program order: the gateway
call, the append of the assistant turn, the block processing events, the
append of the tool-result turn when tool results were collected, and the
flush when the reply buffer is non-empty. -/
def iterEvents (tool : ToolFn) (msg : AssistantMsg) : List Event :=
  let pb := processBlocks tool msg.content
  Event.gatewayCall :: Event.appendAssistant ::
    (pb.events
      ++ (if pb.results.isEmpty then []
          else [Event.appendToolResults (pb.results.map Prod.fst)])
      ++ (iterFlush tool msg).map Event.sinkSend)

/-- Observable outcome of one loop run: the final messages list, the
send_reply calls in order, and the full event trace. -/
structure RunOut where
  messages : List Turn
  sink : List String
  events : List Event

/-- Embedding of the while loop of AnthropicClient.call.  The oracle list
supplies one result per call_api invocation; the run stops early when the
oracle is exhausted (the real loop would keep calling the provider).  On a
gateway exception the error text is appended to the fresh reply buffer and
the loop breaks at once (lines 116-119): the break skips the flush at
lines 165-166, so the buffered error is discarded and nothing reaches
send_reply.  On success the assistant turn is appended, the content blocks
are processed, the tool-result turn is appended when any tool result was
collected, the non-empty reply buffer is flushed as one joined message,
and the loop continues exactly when stop_reason is tool_use. -/
def runLoop (tool : ToolFn) (messages : List Turn) : List GwResult → RunOut
  | [] => ⟨messages, [], []⟩
  | Except.error e :: _ => ⟨messages, [], [Event.gatewayCall, Event.gatewayError e]⟩
  | Except.ok msg :: rest =>
    let flush := iterFlush tool msg
    let ms2 := nextMessages tool messages msg
    let evs := iterEvents tool msg
    if msg.stop_reason == "tool_use" then
      let next := runLoop tool ms2 rest
      ⟨next.messages, flush ++ next.sink, evs ++ next.events⟩
    else
      ⟨ms2, flush, evs⟩

/-- The initial messages list of AnthropicClient.call: one user turn whose
content is one text block carrying the user prompt (its cache_control
marker is a provider hint without loop-visible effect). -/
def initialMessages (user_prompt : String) : List Turn :=
  [⟨"user", [Block.text user_prompt]⟩]

/-- Embedding of AnthropicClient.call. -/
def AnthropicClient_call (tool : ToolFn) (oracle : List GwResult) (user_prompt : String) : RunOut :=
  runLoop tool (initialMessages user_prompt) oracle

-- ======================================================================
-- src/app/dispatch_prompt.py : handle_prompt
-- ======================================================================

/-- Observable outcome of dispatch_prompt.handle_prompt: the system prompt
assembled by _ask_claude when Prompt Assembly ran at all, and the loop
run. -/
structure PromptOut where
  assembled : Option (List PromptSeg)
  run : RunOut

/-- Embedding of dispatch_prompt.handle_prompt: the literal prompt emojis
short-circuits to one send_reply call with the fixed catalog, before any
prompt assembly or gateway involvement; every other prompt assembles the
system prompt and enters the conversation loop. -/
def handle_prompt (tool : ToolFn) (oracle : List GwResult)
    (character_name user_prompt : String) : PromptOut :=
  match user_prompt with
  | "emojis" => ⟨none, ⟨[], [emojiCatalog], []⟩⟩
  | _ => ⟨some (assembleSystemPrompt character_name),
          AnthropicClient_call tool oracle user_prompt⟩

-- ======================================================================
-- History ordering invariant (spec section 3)
-- ======================================================================

/-- The tool-use ids of a content list, in order. -/
def toolUseIds (blocks : List Block) : List String :=
  blocks.filterMap (fun b =>
    match b with
    | Block.tool_use id _ _ => some id
    | _ => none)

/-- The referenced tool-use ids of a content list of tool_result blocks,
in order. -/
def resultIds (blocks : List Block) : List String :=
  blocks.filterMap (fun b =>
    match b with
    | Block.tool_result id _ => some id
    | _ => none)

/-- Whether a block is a tool_result block. -/
def Block.isToolResult : Block → Bool
  | Block.tool_result _ _ => true
  | _ => false

/-- The role of a turn in the vocabulary of the spec: the turns the loop
appends with role user and content made of tool_result blocks are the
tool-result turns of the spec; every other turn keeps its role string. -/
def specRole (t : Turn) : String :=
  if t.role == "user" && !t.content.isEmpty && t.content.all Block.isToolResult
  then "tool-result" else t.role

/-- Order preserving containment of one id list in another. -/
def isSubseq : List String → List String → Bool
  | [], _ => true
  | _ :: _, [] => false
  | a :: as, b :: bs =>
    if a == b then isSubseq as bs else isSubseq (a :: as) bs

/-- The pairwise part of the history ordering invariant: consecutive turns
never share a role, and a tool-result turn directly follows an assistant
turn whose tool-use ids contain its referenced ids in order. -/
def pairOk (a b : Turn) : Bool :=
  (specRole a != specRole b)
    && (if specRole b == "tool-result"
        then specRole a == "assistant" && isSubseq (resultIds b.content) (toolUseIds a.content)
        else true)

/-- The history ordering invariant over a whole messages list. -/
def chainOk : List Turn → Bool
  | [] => true
  | [_] => true
  | a :: b :: rest => pairOk a b && chainOk (b :: rest)

/-- Counts the gateway calls in an event trace. -/
def countGateway (evs : List Event) : Nat :=
  evs.countP (fun e => e matches Event.gatewayCall)

-- ======================================================================
-- Helper lemmas
-- ======================================================================

/-- The block processing fold distributes over list append, componentwise. -/
theorem processBlocks_append (tool : ToolFn) (l₁ l₂ : List Block) :
    processBlocks tool (l₁ ++ l₂) =
      ⟨(processBlocks tool l₁).replies ++ (processBlocks tool l₂).replies,
       (processBlocks tool l₁).results ++ (processBlocks tool l₂).results,
       (processBlocks tool l₁).events ++ (processBlocks tool l₂).events⟩ := by
  induction l₁ with
  | nil => simp [processBlocks]
  | cons b bs ih =>
    cases b with
    | text s => simp [processBlocks, ih]
    | tool_use id name inp =>
      cases hres : (tool name inp).result with
      | ok r => simp [processBlocks, hres, ih]
      | error e => simp [processBlocks, hres, ih]
    | tool_result id c => simp [processBlocks, ih]
    | other ty => simp [processBlocks, ih]

/-- isSubseq is reflexive. -/
theorem isSubseq_refl : ∀ l : List String, isSubseq l l = true := by
  intro l
  induction l with
  | nil => rfl
  | cons a as ih => simp [isSubseq, ih]

-- ======================================================================
-- C1 (code bug): gateway failure silently ends the loop
-- ======================================================================

/-- C1, evaluated at the failing input: when the first call_api invocation
raises, the loop appends the error text to the fresh reply buffer and
breaks at once, so the run ends with the initial history, an EMPTY output
sink, and an event trace recording only the gateway call and its failure —
in particular no tool is invoked, but, contrary to the claim, the output
sink receives no message at all (the break at line 119 of anthropic.py
skips the flush at lines 165-166, and the direct send at line 118 is
commented out), rather than exactly one message starting with Error. -/
theorem C1_gateway_error_first_call (tool : ToolFn) (e : String)
    (rest : List GwResult) (p : String) :
    AnthropicClient_call tool (Except.error e :: rest) p =
      ⟨initialMessages p, [], [Event.gatewayCall, Event.gatewayError e]⟩ := rfl

-- ======================================================================
-- C7: the emojis short-circuit
-- ======================================================================

/-- C7: for every character name, tool behavior and gateway oracle, the
literal user prompt emojis makes handle_prompt send exactly one message,
the fixed concatenated emoji catalog, with no Prompt Assembly (the
assembled field stays none) and an empty event trace, hence zero gateway
calls and zero tool invocations. -/
theorem C7_emojis_short_circuit (tool : ToolFn) (oracle : List GwResult)
    (character_name : String) :
    handle_prompt tool oracle character_name "emojis" =
      ⟨none, ⟨[], [emojiCatalog], []⟩⟩ := rfl

-- ======================================================================
-- C5: unknown tool dispatch
-- ======================================================================

/-- C5: for every tool name other than get_character_sheet and roll_dice,
handle_tool returns exactly the string Unknown tool: name as its result
and emits that same string on the side-channel sink exactly once (the
emits list is that one string and nothing else). -/
theorem C5_unknown_tool (rand : RandFn) (name : String) (input : Json)
    (h1 : name ≠ "get_character_sheet") (h2 : name ≠ "roll_dice") :
    handle_tool rand name input =
      ⟨["Unknown tool: " ++ name], Except.ok ("Unknown tool: " ++ name)⟩ := by
  unfold handle_tool
  split
  · exact absurd rfl h1
  · exact absurd rfl h2
  · rfl

/-- Witness for C5 at the concrete unknown name frobnicate. -/
theorem C5_unknown_tool_witness :
    handle_tool (fun _ _ _ => (1 : Int)) "frobnicate" Json.jnull =
      ⟨["Unknown tool: " ++ "frobnicate"], Except.ok ("Unknown tool: " ++ "frobnicate")⟩ :=
  C5_unknown_tool (fun _ _ _ => (1 : Int)) "frobnicate" Json.jnull
    (by decide) (by decide)

-- ======================================================================
-- C9: prompt assembly is deterministic and always lists the party
-- ======================================================================

/-- C9: Prompt Assembly is a pure function of the character name, so two
calls with the same name give identical output, and for every name,
recognized or not, the character segment text begins with the party member
list line. -/
theorem C9_prompt_assembly_deterministic (character_name : String) :
    assembleSystemPrompt character_name = assembleSystemPrompt character_name ∧
    ∃ rest, system_prompt character_name =
      "The party members are: " ++ renderStrListJson sheetNames ++ rest := by
  refine ⟨rfl, ?_⟩
  unfold system_prompt
  cases lookupSheet character_name with
  | none => exact ⟨"", by simp⟩
  | some sheet =>
    exact ⟨"\n\n" ++ "Here is the player's character sheet:\n" ++ dumpSheet sheet,
           by simp [String.append_assoc]⟩

-- ======================================================================
-- C10 and C6: the dice tool
-- ======================================================================

/-- Validation only accepts requests with sides >= 1 and times >= 1. -/
theorem validateDiceInput_bounds {j : Json} {inp : DiceRollInput}
    (h : validateDiceInput j = Except.ok inp) :
    1 ≤ inp.sides ∧ 1 ≤ inp.times := by
  cases j <;> simp only [validateDiceInput] at h
  case jnull => exact absurd h (fun hc => Except.noConfusion hc)
  case jbool b => exact absurd h (fun hc => Except.noConfusion hc)
  case jint n => exact absurd h (fun hc => Except.noConfusion hc)
  case jstr s => exact absurd h (fun hc => Except.noConfusion hc)
  case jarr xs => exact absurd h (fun hc => Except.noConfusion hc)
  case jobj fields =>
    repeat' split at h
    all_goals
      first
        | exact absurd h (fun hc => Except.noConfusion hc)
        | (cases Except.ok.inj h; refine ⟨?_, ?_⟩ <;> simp <;> omega)

/-- C10: for every input accepted by validation, the guard branch on
sides < 1 inside roll_dice is not taken: the call evaluates to the else
branch, which emits exactly one breakdown message on the side-channel
sink and returns the JSON rolls payload; accordingly the validated run
wrapper emits exactly that one message and returns an ok result. -/
theorem C10_sides_guard_unreachable (rand : RandFn) (j : Json) (inp : DiceRollInput)
    (h : validateDiceInput j = Except.ok inp) :
    1 ≤ inp.sides ∧
    roll_dice rand inp =
      ([inp.stringify ++ " -> " ++ toEmojis inp.sides (rollList rand inp.sides inp.times.toNat)],
       renderRollsJson (rollList rand inp.sides inp.times.toNat)) ∧
    roll_dice_run rand j =
      ⟨[inp.stringify ++ " -> " ++ toEmojis inp.sides (rollList rand inp.sides inp.times.toNat)],
       Except.ok (renderRollsJson (rollList rand inp.sides inp.times.toNat))⟩ := by
  have hs := (validateDiceInput_bounds h).left
  have hguard : ¬ inp.sides < 1 := by omega
  refine ⟨hs, ?_, ?_⟩
  · simp [roll_dice, hguard]
  · simp [roll_dice_run, h, roll_dice, hguard]

/-- Witness for C10 at the concrete request of one d6. -/
theorem C10_sides_guard_unreachable_witness :
    1 ≤ (DiceRollInput.mk 6 1).sides ∧
    roll_dice (fun lo _ _ => lo) ⟨6, 1⟩ =
      ([DiceRollInput.stringify ⟨6, 1⟩ ++ " -> "
          ++ toEmojis (DiceRollInput.mk 6 1).sides
               (rollList (fun lo _ _ => lo) (DiceRollInput.mk 6 1).sides
                 (DiceRollInput.mk 6 1).times.toNat)],
       renderRollsJson
         (rollList (fun lo _ _ => lo) (DiceRollInput.mk 6 1).sides
           (DiceRollInput.mk 6 1).times.toNat)) ∧
    roll_dice_run (fun lo _ _ => lo) (Json.jobj [("sides", Json.jint 6)]) =
      ⟨[DiceRollInput.stringify ⟨6, 1⟩ ++ " -> "
          ++ toEmojis (DiceRollInput.mk 6 1).sides
               (rollList (fun lo _ _ => lo) (DiceRollInput.mk 6 1).sides
                 (DiceRollInput.mk 6 1).times.toNat)],
       Except.ok (renderRollsJson
         (rollList (fun lo _ _ => lo) (DiceRollInput.mk 6 1).sides
           (DiceRollInput.mk 6 1).times.toNat))⟩ :=
  C10_sides_guard_unreachable (fun lo _ _ => lo) (Json.jobj [("sides", Json.jint 6)])
    ⟨6, 1⟩ (by decide)

/-- C6: for every draw function satisfying the randint contract and every
validated request, the rolls list of the returned payload has exactly
times entries, each within 1 and sides, and the returned string payload is
the JSON rendering of precisely that list. -/
theorem C6_roll_dice_bounds (rand : RandFn)
    (hrand : ∀ lo hi : Int, ∀ n : Nat, lo ≤ hi → lo ≤ rand lo hi n ∧ rand lo hi n ≤ hi)
    (j : Json) (inp : DiceRollInput) (h : validateDiceInput j = Except.ok inp) :
    (rollList rand inp.sides inp.times.toNat).length = inp.times.toNat ∧
    ((inp.times.toNat : Int) = inp.times ∧ 1 ≤ inp.times) ∧
    (∀ r ∈ rollList rand inp.sides inp.times.toNat, 1 ≤ r ∧ r ≤ inp.sides) ∧
    (roll_dice rand inp).snd = renderRollsJson (rollList rand inp.sides inp.times.toNat) := by
  obtain ⟨hs, ht⟩ := validateDiceInput_bounds h
  refine ⟨by simp [rollList], ⟨Int.toNat_of_nonneg (by omega), ht⟩, ?_, ?_⟩
  · intro r hr
    simp only [rollList, List.mem_map] at hr
    obtain ⟨i, _, rfl⟩ := hr
    exact hrand 1 inp.sides i hs
  · simp [roll_dice, show ¬ inp.sides < 1 by omega]

/-- Witness for C6 at the concrete request of two d20 and the draw
function that always returns the low bound. -/
theorem C6_roll_dice_bounds_witness :
    (rollList (fun lo _ _ => lo) (DiceRollInput.mk 20 2).sides
        (DiceRollInput.mk 20 2).times.toNat).length = (DiceRollInput.mk 20 2).times.toNat ∧
    (((DiceRollInput.mk 20 2).times.toNat : Int) = (DiceRollInput.mk 20 2).times ∧
      1 ≤ (DiceRollInput.mk 20 2).times) ∧
    (∀ r ∈ rollList (fun lo _ _ => lo) (DiceRollInput.mk 20 2).sides
        (DiceRollInput.mk 20 2).times.toNat,
      1 ≤ r ∧ r ≤ (DiceRollInput.mk 20 2).sides) ∧
    (roll_dice (fun lo _ _ => lo) ⟨20, 2⟩).snd =
      renderRollsJson (rollList (fun lo _ _ => lo) (DiceRollInput.mk 20 2).sides
        (DiceRollInput.mk 20 2).times.toNat) :=
  C6_roll_dice_bounds (fun lo _ _ => lo)
    (fun lo _ _ hle => ⟨le_refl lo, hle⟩)
    (Json.jobj [("sides", Json.jint 20), ("times", Json.jint 2)])
    ⟨20, 2⟩ (by decide)

-- ======================================================================
-- C4: a failing tool invocation is isolated
-- ======================================================================

/-- C4: when the tool raised on one tool_use block of an assistant turn,
block processing yields exactly one Error entry for it in the reply buffer
(after the fragments it emitted before failing), contributes NO tool
result pair for it, and the blocks before and after it are processed
exactly as they would be on their own — in particular every other tool use
of the same turn still executes and keeps its results. -/
theorem C4_tool_failure_isolated (tool : ToolFn) (bs1 bs2 : List Block)
    (id name : String) (inp : Json) (e : String)
    (h : (tool name inp).result = Except.error e) :
    processBlocks tool (bs1 ++ Block.tool_use id name inp :: bs2) =
      ⟨(processBlocks tool bs1).replies
         ++ (tool name inp).emits ++ ("Error: " ++ e) :: (processBlocks tool bs2).replies,
       (processBlocks tool bs1).results ++ (processBlocks tool bs2).results,
       (processBlocks tool bs1).events
         ++ (Event.toolInvoke name :: (tool name inp).emits.map Event.emit)
         ++ (processBlocks tool bs2).events⟩ := by
  rw [processBlocks_append]
  simp [processBlocks, h]

/-- Witness for C4: a turn with a text block, a failing tool use, and a
succeeding tool use; the failing one leaves one Error entry and no result,
the succeeding one still yields its result. -/
theorem C4_tool_failure_isolated_witness :
    processBlocks
      (fun name _ => if name == "bad" then ⟨["pre"], Except.error "boom"⟩
                     else ⟨[], Except.ok "fine"⟩)
      ([Block.text "a"] ++ Block.tool_use "id1" "bad" Json.jnull
         :: [Block.tool_use "id2" "good" Json.jnull]) =
      ⟨(processBlocks (fun name _ => if name == "bad" then ⟨["pre"], Except.error "boom"⟩
                                     else ⟨[], Except.ok "fine"⟩) [Block.text "a"]).replies
         ++ ((fun (name : String) (_ : Json) =>
                if name == "bad" then (⟨["pre"], Except.error "boom"⟩ : ToolOutcome)
                else ⟨[], Except.ok "fine"⟩) "bad" Json.jnull).emits
         ++ ("Error: " ++ "boom")
           :: (processBlocks (fun name _ => if name == "bad" then ⟨["pre"], Except.error "boom"⟩
                                            else ⟨[], Except.ok "fine"⟩)
                 [Block.tool_use "id2" "good" Json.jnull]).replies,
       (processBlocks (fun name _ => if name == "bad" then ⟨["pre"], Except.error "boom"⟩
                                     else ⟨[], Except.ok "fine"⟩) [Block.text "a"]).results
         ++ (processBlocks (fun name _ => if name == "bad" then ⟨["pre"], Except.error "boom"⟩
                                          else ⟨[], Except.ok "fine"⟩)
               [Block.tool_use "id2" "good" Json.jnull]).results,
       (processBlocks (fun name _ => if name == "bad" then ⟨["pre"], Except.error "boom"⟩
                                     else ⟨[], Except.ok "fine"⟩) [Block.text "a"]).events
         ++ (Event.toolInvoke "bad"
               :: (((fun (name : String) (_ : Json) =>
                      if name == "bad" then (⟨["pre"], Except.error "boom"⟩ : ToolOutcome)
                      else ⟨[], Except.ok "fine"⟩) "bad" Json.jnull).emits).map Event.emit)
         ++ (processBlocks (fun name _ => if name == "bad" then ⟨["pre"], Except.error "boom"⟩
                                          else ⟨[], Except.ok "fine"⟩)
               [Block.tool_use "id2" "good" Json.jnull]).events⟩ :=
  C4_tool_failure_isolated
    (fun name _ => if name == "bad" then ⟨["pre"], Except.error "boom"⟩
                   else ⟨[], Except.ok "fine"⟩)
    [Block.text "a"] [Block.tool_use "id2" "good" Json.jnull]
    "id1" "bad" Json.jnull "boom" (by decide)

-- ======================================================================
-- C3: flush and continuation per iteration
-- ======================================================================

/-- Whether an event is one the block processing fold can produce. -/
def Event.isToolish : Event → Bool
  | Event.toolInvoke _ => true
  | Event.emit _ => true
  | _ => false

/-- Block processing only ever records tool invocations and emitted
fragments. -/
theorem processBlocks_events_toolish (tool : ToolFn) (blocks : List Block) :
    ∀ e ∈ (processBlocks tool blocks).events, e.isToolish = true := by
  induction blocks with
  | nil => intro e he; exact absurd he (by simp [processBlocks])
  | cons b bs ih =>
    intro e he
    cases b with
    | text s => exact ih e (by simpa [processBlocks] using he)
    | tool_use id name inp =>
      cases hres : (tool name inp).result with
      | ok r =>
        simp only [processBlocks, hres] at he
        rcases List.mem_append.mp he with h1 | h2
        · rcases List.mem_cons.mp h1 with rfl | hm
          · rfl
          · obtain ⟨s, _, rfl⟩ := List.mem_map.mp hm
            rfl
        · exact ih e h2
      | error err =>
        simp only [processBlocks, hres] at he
        rcases List.mem_append.mp he with h1 | h2
        · rcases List.mem_cons.mp h1 with rfl | hm
          · rfl
          · obtain ⟨s, _, rfl⟩ := List.mem_map.mp hm
            rfl
        · exact ih e h2
    | tool_result id c => exact ih e (by simpa [processBlocks] using he)
    | other ty => exact ih e (by simpa [processBlocks] using he)

/-- Exactly one gateway call is recorded per successful iteration. -/
theorem countGateway_iterEvents (tool : ToolFn) (msg : AssistantMsg) :
    countGateway (iterEvents tool msg) = 1 := by
  simp only [iterEvents, countGateway, List.countP_cons, List.countP_append]
  norm_num
  intro a ha
  have := processBlocks_events_toolish tool msg.content a ha
  cases a <;> simp_all [Event.isToolish]

/-- countGateway distributes over trace concatenation. -/
theorem countGateway_append (a b : List Event) :
    countGateway (a ++ b) = countGateway a + countGateway b :=
  List.countP_append _ a b

/-- Unfolding equation for one successful iteration of the loop. -/
theorem runLoop_cons_ok (tool : ToolFn) (ms : List Turn) (msg : AssistantMsg)
    (rest : List GwResult) :
    runLoop tool ms (Except.ok msg :: rest) =
      if msg.stop_reason == "tool_use" then
        ⟨(runLoop tool (nextMessages tool ms msg) rest).messages,
         iterFlush tool msg ++ (runLoop tool (nextMessages tool ms msg) rest).sink,
         iterEvents tool msg ++ (runLoop tool (nextMessages tool ms msg) rest).events⟩
      else ⟨nextMessages tool ms msg, iterFlush tool msg, iterEvents tool msg⟩ := rfl

/-- A run over a non-empty oracle always performs at least one gateway
call. -/
theorem countGateway_runLoop_cons (tool : ToolFn) (ms : List Turn) (gw : GwResult)
    (rest : List GwResult) :
    1 ≤ countGateway (runLoop tool ms (gw :: rest)).events := by
  cases gw with
  | error e => simp [runLoop, countGateway]
  | ok msg =>
    rw [runLoop_cons_ok]
    split
    · simp [countGateway_append, countGateway_iterEvents]
    · simp [countGateway_iterEvents]

/-- C3: after one successful iteration on an assistant turn, the sink
output of the run is the flush of this iteration (one joined message when
the per-iteration reply buffer is non-empty, no sink call when it is
empty) followed by whatever the continuation run produces, and the
continuation happens exactly when the stop indicator is tool_use: the
gateway call count of the run is one plus the count of the continuation
run in the tool_use case and exactly one otherwise, the continuation run
itself making at least one further gateway call whenever the oracle has a
response left. -/
theorem C3_flush_and_continue_iff_tool_use (tool : ToolFn) (ms : List Turn)
    (msg : AssistantMsg) (rest : List GwResult) :
    (runLoop tool ms (Except.ok msg :: rest)).sink =
      iterFlush tool msg
        ++ (if msg.stop_reason == "tool_use"
            then (runLoop tool (nextMessages tool ms msg) rest).sink else []) ∧
    iterFlush tool msg =
      (if (processBlocks tool msg.content).replies.isEmpty then []
       else [String.intercalate "\n" (processBlocks tool msg.content).replies]) ∧
    countGateway (runLoop tool ms (Except.ok msg :: rest)).events =
      1 + (if msg.stop_reason == "tool_use"
           then countGateway (runLoop tool (nextMessages tool ms msg) rest).events else 0) ∧
    (rest = [] ∨ 1 ≤ countGateway (runLoop tool (nextMessages tool ms msg) rest).events) := by
  refine ⟨?_, rfl, ?_, ?_⟩
  · rw [runLoop_cons_ok]; split <;> simp
  · rw [runLoop_cons_ok]; split
    · simp [countGateway_append, countGateway_iterEvents]
    · simp [countGateway_iterEvents]
  · cases rest with
    | nil => exact Or.inl rfl
    | cons gw rest2 =>
      exact Or.inr (countGateway_runLoop_cons tool (nextMessages tool ms msg) gw rest2)

-- ======================================================================
-- C2: the history ordering invariant
-- ======================================================================

/-- A turn appended with role assistant is classified assistant. -/
theorem specRole_assistant (c : List Block) : specRole ⟨"assistant", c⟩ = "assistant" := rfl

/-- A non-empty constructed tool-result turn is classified tool-result. -/
theorem specRole_toolResultTurn (results : List (String × String)) (h : results ≠ []) :
    specRole (toolResultTurn results) = "tool-result" := by
  cases results with
  | nil => exact absurd rfl h
  | cons r rs =>
    simp [toolResultTurn, specRole]
    exact ⟨rfl, fun x x1 x2 _ hx => hx ▸ rfl⟩

/-- The referenced ids of a constructed tool-result turn are exactly the
collected pair keys, in order. -/
theorem resultIds_toolResultTurn (results : List (String × String)) :
    resultIds (toolResultTurn results).content = results.map Prod.fst := by
  induction results with
  | nil => rfl
  | cons r rs ih => simpa [toolResultTurn, resultIds] using ih

/-- When the tool never fails, the collected tool result keys are exactly
the tool-use ids of the processed blocks, in order. -/
theorem processBlocks_resultIds (tool : ToolFn)
    (hTool : ∀ name inp, ∃ r, (tool name inp).result = Except.ok r)
    (blocks : List Block) :
    (processBlocks tool blocks).results.map Prod.fst = toolUseIds blocks := by
  induction blocks with
  | nil => simp [processBlocks, toolUseIds]
  | cons b bs ih =>
    cases b with
    | text s => simpa [processBlocks, toolUseIds] using ih
    | tool_use id name inp =>
      obtain ⟨r, hr⟩ := hTool name inp
      simp [processBlocks, hr, toolUseIds]
      simpa [toolUseIds] using ih
    | tool_result id c => simpa [processBlocks, toolUseIds] using ih
    | other ty => simpa [processBlocks, toolUseIds] using ih

/-- chainOk over a snoc decomposes into chainOk of the prefix and the link
between the old last turn and the new turn. -/
theorem chainOk_append_singleton (l : List Turn) (t : Turn) :
    chainOk (l ++ [t]) =
      (chainOk l && (match l.getLast? with
        | none => true
        | some a => pairOk a t)) := by
  induction l with
  | nil => simp [chainOk]
  | cons a l ih =>
    cases l with
    | nil => simp [chainOk]
    | cons b l2 =>
      have h1 : chainOk ((a :: b :: l2) ++ [t]) =
          (pairOk a b && chainOk ((b :: l2) ++ [t])) := rfl
      have h2 : chainOk (a :: b :: l2) = (pairOk a b && chainOk (b :: l2)) := rfl
      rw [h1, ih, h2, List.getLast?_cons_cons, Bool.and_assoc]

/-- Preservation of the history ordering invariant by the loop, assuming
the tool never fails and every tool-requesting assistant turn carries at
least one tool-use block. -/
theorem runLoop_chainOk (tool : ToolFn)
    (hTool : ∀ name inp, ∃ r, (tool name inp).result = Except.ok r)
    (oracle : List GwResult) :
    ∀ ms : List Turn,
      (∀ msg, Except.ok msg ∈ oracle → msg.stop_reason = "tool_use" →
          toolUseIds msg.content ≠ []) →
      chainOk ms = true →
      (∀ t, ms.getLast? = some t → ¬ specRole t = "assistant") →
      chainOk (runLoop tool ms oracle).messages = true := by
  induction oracle with
  | nil => intro ms _ hc _; exact hc
  | cons gw rest ih =>
    intro ms hOr hc hlast
    cases gw with
    | error e => exact hc
    | ok msg =>
      rw [runLoop_cons_ok]
      have hasst : chainOk (ms ++ [⟨"assistant", msg.content⟩]) = true := by
        rw [chainOk_append_singleton]
        cases hl : ms.getLast? with
        | none => simp [hc]
        | some a =>
          have hne := hlast a hl
          have hbeq : (("assistant" : String) == "tool-result") = false := by decide
          have hpair : pairOk a ⟨"assistant", msg.content⟩ = true := by
            simp [pairOk, specRole_assistant, hbeq, bne_iff_ne]
            exact hne
          simp [hc, hpair]
      by_cases hres : (processBlocks tool msg.content).results.isEmpty = true
      · have hstop : ¬ (msg.stop_reason == "tool_use") = true := by
          intro hstop
          have hids := hOr msg (List.mem_cons_self _ _) (by simpa using hstop)
          have hmap := processBlocks_resultIds tool hTool msg.content
          rw [List.isEmpty_iff] at hres
          rw [hres] at hmap
          exact hids (by simpa using hmap.symm)
        rw [if_neg hstop]
        show chainOk (nextMessages tool ms msg) = true
        simp only [nextMessages, hres, if_true]
        exact hasst
      · have hres2 : (processBlocks tool msg.content).results.isEmpty = false := by
          simpa using hres
        have hnil : (processBlocks tool msg.content).results ≠ [] := by
          simpa [List.isEmpty_iff] using hres
        have hms2 : nextMessages tool ms msg =
            (ms ++ [⟨"assistant", msg.content⟩])
              ++ [toolResultTurn (processBlocks tool msg.content).results] := by
          simp [nextMessages, hres2]
        have htr : chainOk (nextMessages tool ms msg) = true := by
          rw [hms2, chainOk_append_singleton, List.getLast?_concat]
          have hids := processBlocks_resultIds tool hTool msg.content
          have hb1 : (("assistant" : String) != "tool-result") = true := by decide
          have hb2 : (("tool-result" : String) == "tool-result") = true := by decide
          have hb3 : (("assistant" : String) == "assistant") = true := by decide
          have hpair2 : pairOk ⟨"assistant", msg.content⟩
              (toolResultTurn (processBlocks tool msg.content).results) = true := by
            simp only [pairOk, specRole_assistant, specRole_toolResultTurn _ hnil,
              hb1, hb2, if_true, Bool.true_and]
            rw [resultIds_toolResultTurn, hids]
            simp [hb3, isSubseq_refl]
          simp [hasst, hpair2]
        split
        · show chainOk (runLoop tool (nextMessages tool ms msg) rest).messages = true
          apply ih
          · intro m hm hs
            exact hOr m (List.mem_cons_of_mem _ hm) hs
          · exact htr
          · intro t ht
            rw [hms2, List.getLast?_concat] at ht
            cases ht
            rw [specRole_toolResultTurn _ hnil]
            decide
        · exact htr

/-- A tool that always raises, and an oracle on which the model requests a
tool and then ends: the failing tool produces no tool result, so no
tool-result turn is appended while the loop still continues, leaving two
consecutive assistant turns in history. -/
def c2BadTool : ToolFn := fun _ _ => ⟨[], Except.error "boom"⟩

/-- Oracle for the C2 counterexample: a tool-requesting assistant turn
followed by a final assistant turn. -/
def c2BadOracle : List GwResult :=
  [Except.ok ⟨[Block.tool_use "toolu_1" "roll_dice" Json.jnull], "tool_use"⟩,
   Except.ok ⟨[], "end_turn"⟩]

/-- C2 counterexample: after the second loop iteration of this run the
history is user, assistant, assistant — two consecutive turns with the
same role — so the claimed invariant fails on the code as stated. -/
theorem C2_counterexample :
    chainOk (AnthropicClient_call c2BadTool c2BadOracle "hi").messages = false := by decide

/-- C2, amended: the history ordering invariant holds after every loop
iteration (equivalently, on the final history, of which every intermediate
history is a prefix) PROVIDED no tool invocation fails and every assistant
turn whose stop indicator is tool_use carries at least one tool-use block;
a failing tool invocation (or a tool-requesting turn without tool uses)
produces no tool-result turn while the loop continues, which can leave two
consecutive assistant turns. -/
theorem C2_history_invariant_amended (tool : ToolFn) (oracle : List GwResult) (p : String)
    (hTool : ∀ name inp, ∃ r, (tool name inp).result = Except.ok r)
    (hOracle : ∀ msg, Except.ok msg ∈ oracle → msg.stop_reason = "tool_use" →
        toolUseIds msg.content ≠ []) :
    chainOk (AnthropicClient_call tool oracle p).messages = true := by
  apply runLoop_chainOk tool hTool oracle (initialMessages p) hOracle
  · rfl
  · intro t ht
    cases ht
    simp [specRole, Block.isToolResult]

/-- Witness for the amended C2 on a two-iteration run with a succeeding
tool. -/
def c2GoodTool : ToolFn := fun _ _ => ⟨["rolled 2d20"], Except.ok "7"⟩

/-- Oracle for the C2 witness: a tool-requesting turn with text and one
tool use, then a final text-only turn. -/
def c2GoodOracle : List GwResult :=
  [Except.ok ⟨[Block.text "Rolling...",
               Block.tool_use "toolu_1" "roll_dice" Json.jnull], "tool_use"⟩,
   Except.ok ⟨[Block.text "You rolled well!"], "end_turn"⟩]

/-- Witness for C2 amended at a concrete run. -/
theorem C2_history_invariant_amended_witness :
    chainOk (AnthropicClient_call c2GoodTool c2GoodOracle "roll for me").messages = true :=
  C2_history_invariant_amended c2GoodTool c2GoodOracle "roll for me"
    (fun _ _ => ⟨"7", rfl⟩)
    (by
      intro msg hm hs
      simp only [c2GoodOracle, List.mem_cons, List.not_mem_nil, or_false] at hm
      rcases hm with hm | hm
      · cases Except.ok.inj hm
        decide
      · cases Except.ok.inj hm
        exact absurd hs (by decide))

-- ======================================================================
-- C8: ordering of fold and flush within one iteration
-- ======================================================================

/-- The part of one iteration trace that precedes the flush: the gateway
call, the assistant append, the tool events, and the tool-result append. -/
def iterPrefixEvents (tool : ToolFn) (msg : AssistantMsg) : List Event :=
  Event.gatewayCall :: Event.appendAssistant ::
    ((processBlocks tool msg.content).events
      ++ (if (processBlocks tool msg.content).results.isEmpty then []
          else [Event.appendToolResults ((processBlocks tool msg.content).results.map Prod.fst)]))

/-- One iteration trace is its pre-flush part followed by the flush. -/
theorem iterEvents_eq_parts (tool : ToolFn) (msg : AssistantMsg) :
    iterEvents tool msg =
      iterPrefixEvents tool msg ++ (iterFlush tool msg).map Event.sinkSend := by
  simp [iterEvents, iterPrefixEvents, List.append_assoc]

/-- C8, amended: within one loop iteration the append of the tool-result
turn to history always PRECEDES the flush of the buffered side-channel
fragments to the output sink (the flush happens before the next gateway
call, but after the fold — the opposite order to the one the claim
states). -/
theorem C8_fold_before_flush_amended (tool : ToolFn) (msg : AssistantMsg)
    (i j : Nat) (ids : List String) (s : String)
    (hi : (iterEvents tool msg)[i]? = some (Event.appendToolResults ids))
    (hj : (iterEvents tool msg)[j]? = some (Event.sinkSend s)) :
    i < j := by
  have hsinkA : ∀ x ∈ iterPrefixEvents tool msg, ∀ s2 : String, x ≠ Event.sinkSend s2 := by
    intro x hx s2
    rcases List.mem_cons.mp hx with rfl | hx2
    · intro hcon; cases hcon
    rcases List.mem_cons.mp hx2 with rfl | hx3
    · intro hcon; cases hcon
    rcases List.mem_append.mp hx3 with hx4 | hx4
    · have ht := processBlocks_events_toolish tool msg.content x hx4
      intro hcon
      subst hcon
      simp [Event.isToolish] at ht
    · revert hx4
      split
      · intro hx4; exact absurd hx4 (List.not_mem_nil x)
      · intro hx4
        rw [List.mem_singleton.mp hx4]
        intro hcon; cases hcon
  have hfoldB : ∀ x ∈ (iterFlush tool msg).map Event.sinkSend,
      ∀ ids2 : List String, x ≠ Event.appendToolResults ids2 := by
    intro x hx ids2
    obtain ⟨m, _, rfl⟩ := List.mem_map.mp hx
    intro hcon; cases hcon
  have hjge : (iterPrefixEvents tool msg).length ≤ j := by
    by_contra hjlt
    push_neg at hjlt
    rw [iterEvents_eq_parts, List.getElem?_append_left hjlt] at hj
    exact hsinkA _ (List.getElem?_mem hj) s rfl
  have hilt : i < (iterPrefixEvents tool msg).length := by
    by_contra hile
    push_neg at hile
    rw [iterEvents_eq_parts, List.getElem?_append_right hile] at hi
    exact hfoldB _ (List.getElem?_mem hi) ids rfl
  omega

/-- Tool and assistant message for the C8 concrete run: one tool use whose
tool emits a fragment and returns a result. -/
def c8Tool : ToolFn := fun _ _ => ⟨["20d -> 7"], Except.ok "7"⟩

/-- Assistant message for the C8 concrete run. -/
def c8Msg : AssistantMsg := ⟨[Block.tool_use "toolu_1" "roll_dice" Json.jnull], "end_turn"⟩

/-- C8 counterexample: in the concrete iteration trace the tool-result
fold sits at index 4 and the flush of the emitted fragment at index 5, so
the claimed ordering (flush strictly before fold) is false on the code. -/
theorem C8_counterexample :
    ¬ (∀ (i j : Nat) (ids : List String) (s : String),
        (iterEvents c8Tool c8Msg)[i]? = some (Event.appendToolResults ids) →
        (iterEvents c8Tool c8Msg)[j]? = some (Event.sinkSend s) →
        j < i) := by
  intro h
  have := h 4 5 ["toolu_1"] "20d -> 7" (by decide) (by decide)
  omega

/-- Witness for the amended C8 on the same concrete iteration: the fold
and flush events really occur at indices 4 and 5, and the theorem orders
them. -/
theorem C8_fold_before_flush_amended_witness :
    (iterEvents c8Tool c8Msg)[4]? = some (Event.appendToolResults ["toolu_1"]) ∧
    (iterEvents c8Tool c8Msg)[5]? = some (Event.sinkSend "20d -> 7") ∧
    (4 : Nat) < 5 :=
  ⟨by decide, by decide,
   C8_fold_before_flush_amended c8Tool c8Msg 4 5 ["toolu_1"] "20d -> 7"
     (by decide) (by decide)⟩
